import Mathlib

/-!
Shallow embedding of the `sc-hooks` repository: the `useEventListener` hook
(src/src/hooks/use-event-listener/index.ts) together with the storage hooks
`useSessionStorage` and `useLocalStorage`, and proofs of the specification
claims about them.

The event-listener model is an explicit state machine over the hook's two
effects. React semantics relevant to this hook are embedded directly:

* `useRef(handler)` is a mutable cell, here the `savedHandler` field.
* The first `useEffect` has dependency list `[handler]`: it runs after any
  render in which the handler differs (by `Object.is`) from the one recorded
  at its previous run, and overwrites the cell.
* The second `useEffect` has dependency list `[eventName, element, options]`:
  it re-runs only when one of those differs by `Object.is` from its previous
  run; its cleanup (captured over the *old* target, listener and options)
  runs before the new body.
* `Object.is` on the ref object and on an options object is reference
  identity, modelled by numeric object ids; on booleans/undefined it is
  value equality.

Platform calls (`addEventListener` / `removeEventListener`) are recorded in a
trace so that attach/detach bookkeeping can be stated.
-/

/-- An event target as the hook sees it: something with an identity and
(possibly) an `addEventListener` capability.  `window` is the distinguished
target with id 0. -/
structure Target where
  tid : Nat
  hasAddEventListener : Bool
deriving DecidableEq, Repr

/-- The global `window` object: always supports listener attachment. -/
def window : Target := ⟨0, true⟩

/-- Identity of a React ref object (`RefObject`), compared by reference. -/
abbrev RefId := Nat

/-- Identity of a handler function, compared by reference (`Object.is`). -/
abbrev HandlerId := Nat

/-- The environment at commit time: what each ref object's `current` field
points at (`none` models `current === null`). -/
abbrev Env := RefId → Option Target

/-- The value part of an `AddEventListenerOptions` object. -/
structure ListenerOpts where
  capture : Bool
  passive : Bool
  once : Bool
deriving DecidableEq, Repr

/-- The `options` argument: absent, a capture boolean, or an options object.
An object carries an object id `oid` because React's dependency comparison
(`Object.is`) is reference identity on objects. -/
inductive Options where
  | noOpts : Options
  | boolOpt (b : Bool) : Options
  | objOpt (oid : Nat) (v : ListenerOpts) : Options
deriving DecidableEq, Repr

/-- `Object.is` on the `options` argument: value equality on
booleans/undefined, reference identity on objects. -/
def objectIs : Options → Options → Bool
  | .noOpts, .noOpts => true
  | .boolOpt a, .boolOpt b => a == b
  | .objOpt i _, .objOpt j _ => i == j
  | _, _ => false

/-- The arguments `useEventListener(eventName, handler, element?, options?)`
receives on one render. -/
structure RenderInput where
  eventName : String
  handler : HandlerId
  element : Option RefId
  options : Options

/-- `const targetElement: T | Window = element?.current ?? window`.
Both a missing `element` argument and a ref whose `current` is `null`
fall through `??` to `window`. -/
def resolveTarget (element : Option RefId) (env : Env) : Target :=
  match element with
  | none => window
  | some r => (env r).getD window

/-- What the attach effect's closure captured for its cleanup: the target,
event name, trampoline listener and options it passed to
`addEventListener`. -/
structure Attachment where
  target : Target
  eventName : String
  listenerId : Nat
  options : Options
deriving DecidableEq, Repr

/-- A recorded platform call. -/
inductive PlatformCall where
  | addCall (t : Target) (e : String) (lid : Nat) (o : Options) : PlatformCall
  | removeCall (t : Target) (e : String) (lid : Nat) (o : Options) : PlatformCall
deriving DecidableEq, Repr

/-- The hook's state between commits. -/
structure HookState where
  /-- Contents of the `savedHandler` ref cell. -/
  savedHandler : HandlerId
  /-- The `[handler]` dependency recorded at the last run of the first effect. -/
  handlerDep : HandlerId
  /-- The `eventName` dependency recorded at the last run of the attach effect. -/
  eventDep : String
  /-- The `element` dependency (ref object identity) recorded at the last run. -/
  elementDep : Option RefId
  /-- The `options` dependency recorded at the last run. -/
  optionsDep : Options
  /-- The live attachment, if the attach effect installed a listener. -/
  attachment : Option Attachment
  /-- Fresh-name supply for trampoline listener closures. -/
  nextLid : Nat
deriving DecidableEq, Repr

/-- Body of the attach effect: resolve the target, bail out when it lacks
`addEventListener`, otherwise install a fresh trampoline listener and record
what the cleanup closure captured.  The dependency snapshot is updated in
either case. -/
def runAttachEffect (inp : RenderInput) (env : Env) (s : HookState) :
    HookState × List PlatformCall :=
  let t := resolveTarget inp.element env
  if t.hasAddEventListener then
    let lid := s.nextLid
    ({ s with
        attachment := some ⟨t, inp.eventName, lid, inp.options⟩
        nextLid := lid + 1
        eventDep := inp.eventName
        elementDep := inp.element
        optionsDep := inp.options },
      [PlatformCall.addCall t inp.eventName lid inp.options])
  else
    ({ s with
        attachment := none
        eventDep := inp.eventName
        elementDep := inp.element
        optionsDep := inp.options },
      [])

/-- Mount: `useRef(handler)` seeds the cell, both effects run for the first
time. -/
def mount (inp : RenderInput) (env : Env) : HookState × List PlatformCall :=
  let s0 : HookState :=
    { savedHandler := inp.handler
      handlerDep := inp.handler
      eventDep := inp.eventName
      elementDep := inp.element
      optionsDep := inp.options
      attachment := none
      nextLid := 0 }
  runAttachEffect inp env s0

/-- Has the attach effect's dependency list `[eventName, element, options]`
changed since its last run?  React compares each entry with `Object.is`. -/
def depsChanged2 (inp : RenderInput) (s : HookState) : Bool :=
  !(inp.eventName == s.eventDep) || !(inp.element == s.elementDep) ||
    !(objectIs inp.options s.optionsDep)

/-- One re-render followed by the commit phase: cleanups of effects whose
dependencies changed run first, then the bodies in declaration order
(the `[handler]` effect before the attach effect). -/
def rerender (inp : RenderInput) (env : Env) (s : HookState) :
    HookState × List PlatformCall :=
  let changed2 := depsChanged2 inp s
  let removes :=
    if changed2 then
      match s.attachment with
      | some a => [PlatformCall.removeCall a.target a.eventName a.listenerId a.options]
      | none => []
    else []
  let s1 := if changed2 then { s with attachment := none } else s
  let s2 :=
    if inp.handler == s1.handlerDep then s1
    else { s1 with savedHandler := inp.handler, handlerDep := inp.handler }
  if changed2 then
    let (s3, adds) := runAttachEffect inp env s2
    (s3, removes ++ adds)
  else (s2, removes)

/-- Unmount: only the attach effect registered a cleanup; it removes exactly
what its closure captured (or nothing, when attach was skipped). -/
def unmount (s : HookState) : List PlatformCall :=
  match s.attachment with
  | some a => [PlatformCall.removeCall a.target a.eventName a.listenerId a.options]
  | none => []

/-- The platform dispatches event `e` on target `t`.  The trampoline
listener `(event) => savedHandler.current(event)` forwards to whatever the
cell holds at that moment; the result is the handler invoked, if any. -/
def fire (s : HookState) (t : Target) (e : String) : Option HandlerId :=
  match s.attachment with
  | some a => if a.target = t ∧ a.eventName = e then some s.savedHandler else none
  | none => none

/-- Run a sequence of re-renders, concatenating the platform-call traces. -/
def runRerenders (steps : List (RenderInput × Env)) (s : HookState) :
    HookState × List PlatformCall :=
  match steps with
  | [] => (s, [])
  | (inp, env) :: rest =>
    let p := rerender inp env s
    let q := runRerenders rest p.1
    (q.1, p.2 ++ q.2)

/-- Is a call an `addEventListener` call? -/
def isAdd : PlatformCall → Bool
  | .addCall _ _ _ _ => true
  | .removeCall _ _ _ _ => false

/-- Is a call a `removeEventListener` call? -/
def isRemove : PlatformCall → Bool
  | .addCall _ _ _ _ => false
  | .removeCall _ _ _ _ => true

/-- Number of `addEventListener` calls in a trace. -/
def addCount (tr : List PlatformCall) : Nat := (tr.filter isAdd).length

/-- Number of `removeEventListener` calls in a trace. -/
def removeCount (tr : List PlatformCall) : Nat := (tr.filter isRemove).length

/-- Re-renders that change only the handler, keeping
`(eventName, element, options)` and the environment fixed. -/
def handlerSteps (inp : RenderInput) (env : Env) (hs : List HandlerId) :
    List (RenderInput × Env) :=
  hs.map (fun h => ({ inp with handler := h }, env))

/-- 1 when a listener is currently attached, 0 otherwise. -/
def attachedNat (s : HookState) : Nat := if s.attachment.isSome then 1 else 0

/-!
## Storage hooks

`useSessionStorage` (source reproduced verbatim in the article under
src/unnamed/part_002, exercised by src/src/hooks/use-session-storage/hook.test.ts)
and `useLocalStorage` (source reproduced verbatim in
src/src/hooks/use-local-storage/README.md, used by use.tsx).

`JSON.stringify` / `JSON.parse` and the `window.sessionStorage` /
`window.localStorage` objects are platform primitives outside the repository;
they are modelled with exactly their contract: serializing a value and parsing
the result round-trips, parsing any other stored string throws, `setItem` /
`removeItem` may throw (e.g. quota exceeded), which the model exposes as
failure flags on the storage state.
-/

/-- A serializable JavaScript value: the types the spec's round-trip property
ranges over (string, number, boolean, null, array, plain object). -/
inductive JsValue where
  | vNull : JsValue
  | vBool (b : Bool) : JsValue
  | vNum (n : Int) : JsValue
  | vStr (s : String) : JsValue
  | vArr (xs : List JsValue) : JsValue
  | vObj (fields : List (String × JsValue)) : JsValue

/-- A raw string held in web storage, as the hooks can observe it: either the
`JSON.stringify` image of some serializable value, or a string `JSON.parse`
rejects. -/
inductive StoredString where
  | serialized (v : JsValue) : StoredString
  | malformed (s : String) : StoredString

/-- `JSON.stringify` on a serializable value. -/
def jsonStringify (v : JsValue) : StoredString := StoredString.serialized v

/-- `JSON.parse`: recovers the value from its serialization, throws (`none`)
on a malformed string. -/
def jsonParse : StoredString → Option JsValue
  | .serialized v => some v
  | .malformed _ => none

/-- A web-storage object (`window.sessionStorage` or `window.localStorage`):
its key/string entries plus flags saying whether the platform raises on
`setItem` (quota exceeded) or `removeItem`. -/
structure WebStorage where
  entries : List (String × StoredString)
  setThrows : Bool
  removeThrows : Bool

/-- Platform `storage.getItem(key)`: the stored string, or `none` for the
`null` it returns on a missing key. -/
def rawGetItem (σ : WebStorage) (key : String) : Option StoredString :=
  σ.entries.lookup key

/-- Platform `storage.setItem(key, s)`: `none` models a thrown exception. -/
def rawSetItem (σ : WebStorage) (key : String) (s : StoredString) :
    Option WebStorage :=
  if σ.setThrows then none
  else some { σ with entries := (key, s) :: σ.entries.filter (fun p => p.1 != key) }

/-- Platform `storage.removeItem(key)`: `none` models a thrown exception. -/
def rawRemoveItem (σ : WebStorage) (key : String) : Option WebStorage :=
  if σ.removeThrows then none
  else some { σ with entries := σ.entries.filter (fun p => p.1 != key) }

/-- `setSessionStorageItem` from `useSessionStorage`: serialize and store;
a platform exception is caught and logged (`window.console.error`), leaving
the storage unchanged.  The second component is the console output. -/
def setSessionStorageItem (key : String) (value : JsValue) (σ : WebStorage) :
    WebStorage × List String :=
  match rawSetItem σ key (jsonStringify value) with
  | some σ2 => (σ2, [])
  | none => (σ, ["error"])

/-- `getSessionStorageItem` from `useSessionStorage`: `null` becomes
`undefined`; a `JSON.parse` exception is caught, logged, and turned into
`undefined`. -/
def getSessionStorageItem (key : String) (σ : WebStorage) :
    Option JsValue × List String :=
  match rawGetItem σ key with
  | none => (none, [])
  | some item =>
    match jsonParse item with
    | some v => (some v, [])
    | none => (none, ["error"])

/-- `removeSessionStorageItem` from `useSessionStorage`: remove the entry;
a platform exception is caught and logged. -/
def removeSessionStorageItem (key : String) (σ : WebStorage) :
    WebStorage × List String :=
  match rawRemoveItem σ key with
  | some σ2 => (σ2, [])
  | none => (σ, ["error"])

namespace LocalStorage

/-- `setItem` from `useLocalStorage`: serialize and store; a platform
exception is caught and logged (`window.console.log`). -/
def setItem (key : String) (value : JsValue) (σ : WebStorage) :
    WebStorage × List String :=
  match rawSetItem σ key (jsonStringify value) with
  | some σ2 => (σ2, [])
  | none => (σ, ["error"])

/-- `getItem` from `useLocalStorage`: `null` becomes `undefined`; a
`JSON.parse` exception is caught, logged, and turned into `undefined`. -/
def getItem (key : String) (σ : WebStorage) : Option JsValue × List String :=
  match rawGetItem σ key with
  | none => (none, [])
  | some item =>
    match jsonParse item with
    | some v => (some v, [])
    | none => (none, ["error"])

/-- `removeItem` from `useLocalStorage`: remove the entry; a platform
exception is caught and logged. -/
def removeItem (key : String) (σ : WebStorage) : WebStorage × List String :=
  match rawRemoveItem σ key with
  | some σ2 => (σ2, [])
  | none => (σ, ["error"])

end LocalStorage

/-!
## Helper lemmas
-/

theorem objectIs_refl (o : Options) : objectIs o o = true := by
  cases o <;> simp [objectIs]

theorem depsChanged2_false_of_same (inp : RenderInput) (s : HookState)
    (h1 : s.eventDep = inp.eventName) (h2 : s.elementDep = inp.element)
    (h3 : objectIs inp.options s.optionsDep = true) :
    depsChanged2 inp s = false := by
  simp [depsChanged2, h1, h2, h3]

theorem rerender_no_dep_change (inp : RenderInput) (env : Env) (s : HookState)
    (h : depsChanged2 inp s = false) :
    rerender inp env s =
      (if inp.handler == s.handlerDep then s
       else { s with savedHandler := inp.handler, handlerDep := inp.handler },
       []) := by
  simp [rerender, h]

theorem mount_eq_of_attachable (inp : RenderInput) (env : Env)
    (hatt : (resolveTarget inp.element env).hasAddEventListener = true) :
    mount inp env =
      ({ savedHandler := inp.handler
         handlerDep := inp.handler
         eventDep := inp.eventName
         elementDep := inp.element
         optionsDep := inp.options
         attachment := some ⟨resolveTarget inp.element env, inp.eventName, 0, inp.options⟩
         nextLid := 1 },
       [PlatformCall.addCall (resolveTarget inp.element env) inp.eventName 0
          inp.options]) := by
  simp [mount, runAttachEffect, hatt]

theorem rerender_handler_only (inp : RenderInput) (env : Env) (s : HookState)
    (hsv : s.savedHandler = s.handlerDep)
    (h : depsChanged2 inp s = false) :
    rerender inp env s =
      ({ s with savedHandler := inp.handler, handlerDep := inp.handler },
       []) := by
  rw [rerender_no_dep_change inp env s h]
  by_cases hh : inp.handler = s.handlerDep
  · obtain ⟨sv, hd, ed, eld, od, at_, nl⟩ := s
    simp_all
  · simp [hh]

theorem runRerenders_handlerSteps (inp : RenderInput) (env : Env)
    (hs : List HandlerId) (s : HookState)
    (hsv : s.savedHandler = s.handlerDep)
    (h1 : s.eventDep = inp.eventName) (h2 : s.elementDep = inp.element)
    (h3 : objectIs inp.options s.optionsDep = true) :
    runRerenders (handlerSteps inp env hs) s =
      ({ s with savedHandler := hs.getLastD s.savedHandler
                handlerDep := hs.getLastD s.savedHandler }, []) := by
  induction hs generalizing s with
  | nil =>
    obtain ⟨sv, hd, ed, eld, od, at_, nl⟩ := s
    simp_all [handlerSteps, runRerenders]
  | cons h t ih =>
    have hre := rerender_handler_only { inp with handler := h } env s hsv
      (depsChanged2_false_of_same _ _ h1 h2 h3)
    have hih := ih { s with savedHandler := h, handlerDep := h } rfl h1 h2 h3
    simp only [handlerSteps, List.map_cons] at hih ⊢
    rw [runRerenders, hre]
    simp only [hih, List.nil_append, List.getLastD_cons]

theorem addCount_append (a b : List PlatformCall) :
    addCount (a ++ b) = addCount a + addCount b := by
  simp [addCount, List.filter_append]

theorem removeCount_append (a b : List PlatformCall) :
    removeCount (a ++ b) = removeCount a + removeCount b := by
  simp [removeCount, List.filter_append]

theorem runAttachEffect_counts (inp : RenderInput) (env : Env) (s : HookState) :
    addCount (runAttachEffect inp env s).2 =
        attachedNat (runAttachEffect inp env s).1 ∧
    removeCount (runAttachEffect inp env s).2 = 0 := by
  by_cases h : (resolveTarget inp.element env).hasAddEventListener = true <;>
    simp [runAttachEffect, h, attachedNat, addCount, removeCount, isAdd,
      isRemove]

theorem rerender_balance (inp : RenderInput) (env : Env) (s : HookState) :
    addCount (rerender inp env s).2 + attachedNat s =
      removeCount (rerender inp env s).2 +
        attachedNat (rerender inp env s).1 := by
  cases hc : depsChanged2 inp s <;>
    by_cases hh : inp.handler = s.handlerDep <;>
      by_cases hatt : (resolveTarget inp.element env).hasAddEventListener = true <;>
        cases ha : s.attachment <;>
          simp [rerender, runAttachEffect, hc, hh, hatt, ha, attachedNat,
            addCount, removeCount, isAdd, isRemove, List.filter_append]

theorem mount_balance (inp : RenderInput) (env : Env) :
    addCount (mount inp env).2 =
        removeCount (mount inp env).2 + attachedNat (mount inp env).1 ∧
    removeCount (mount inp env).2 = 0 := by
  by_cases h : (resolveTarget inp.element env).hasAddEventListener = true <;>
    simp [mount, runAttachEffect, h, attachedNat, addCount, removeCount, isAdd,
      isRemove]

theorem unmount_counts (s : HookState) :
    removeCount (unmount s) = attachedNat s ∧ addCount (unmount s) = 0 := by
  cases ha : s.attachment <;>
    simp [unmount, ha, attachedNat, addCount, removeCount, isAdd, isRemove]

theorem runRerenders_balance (steps : List (RenderInput × Env)) (s : HookState) :
    addCount (runRerenders steps s).2 + attachedNat s =
      removeCount (runRerenders steps s).2 +
        attachedNat (runRerenders steps s).1 := by
  induction steps generalizing s with
  | nil => simp [runRerenders, addCount, removeCount]
  | cons step rest ih =>
    obtain ⟨inp, env⟩ := step
    have h1 := rerender_balance inp env s
    have h2 := ih (rerender inp env s).1
    simp only [runRerenders, addCount_append, removeCount_append]
    omega

theorem rerender_prefix_bound (inp : RenderInput) (env : Env) (s : HookState)
    (m : Nat) :
    removeCount ((rerender inp env s).2.take m) ≤
      addCount ((rerender inp env s).2.take m) + attachedNat s := by
  cases hc : depsChanged2 inp s <;>
    by_cases hh : inp.handler = s.handlerDep <;>
      by_cases hatt : (resolveTarget inp.element env).hasAddEventListener = true <;>
        cases ha : s.attachment <;>
          match m with
          | 0 => simp [rerender, runAttachEffect, hc, hh, hatt, ha, addCount,
              removeCount, attachedNat, isAdd, isRemove]
          | 1 => simp [rerender, runAttachEffect, hc, hh, hatt, ha, addCount,
              removeCount, attachedNat, isAdd, isRemove, List.take_succ_cons]
          | Nat.succ (Nat.succ m') =>
            simp [rerender, runAttachEffect, hc, hh, hatt, ha, addCount,
              removeCount, attachedNat, isAdd, isRemove, List.take_succ_cons]

theorem mount_prefix_bound (inp : RenderInput) (env : Env) (n : Nat) :
    removeCount ((mount inp env).2.take n) ≤
      addCount ((mount inp env).2.take n) := by
  by_cases h : (resolveTarget inp.element env).hasAddEventListener = true <;>
    match n with
    | 0 => simp [mount, runAttachEffect, h, addCount, removeCount]
    | Nat.succ n' => simp [mount, runAttachEffect, h, addCount, removeCount,
        isAdd, isRemove, List.take_succ_cons]

theorem unmount_prefix_bound (s : HookState) (m : Nat) :
    removeCount ((unmount s).take m) ≤
      addCount ((unmount s).take m) + attachedNat s := by
  cases ha : s.attachment <;>
    match m with
    | 0 => simp [unmount, ha, addCount, removeCount, attachedNat]
    | Nat.succ m' => simp [unmount, ha, addCount, removeCount, attachedNat,
        isAdd, isRemove, List.take_succ_cons]

theorem prefixSafe_append (tr c : List PlatformCall) (p : Nat)
    (hb : addCount tr = removeCount tr + p)
    (hps : ∀ n, removeCount (tr.take n) ≤ addCount (tr.take n))
    (hc : ∀ m, removeCount (c.take m) ≤ addCount (c.take m) + p) :
    ∀ n, removeCount ((tr ++ c).take n) ≤ addCount ((tr ++ c).take n) := by
  intro n
  rw [List.take_append_eq_append_take, addCount_append, removeCount_append]
  rcases le_or_lt n tr.length with h | h
  · have h0 : n - tr.length = 0 := by omega
    have := hps n
    simp only [h0, List.take_zero, addCount, removeCount, List.filter_nil,
      List.length_nil, Nat.add_zero] at this ⊢
    exact this
  · have ht : tr.take n = tr := List.take_of_length_le (by omega)
    rw [ht]
    have := hc (n - tr.length)
    omega

theorem runRerenders_prefixSafe (steps : List (RenderInput × Env))
    (s : HookState) (tr : List PlatformCall)
    (hb : addCount tr = removeCount tr + attachedNat s)
    (hps : ∀ n, removeCount (tr.take n) ≤ addCount (tr.take n)) :
    (∀ n, removeCount ((tr ++ (runRerenders steps s).2).take n) ≤
        addCount ((tr ++ (runRerenders steps s).2).take n)) ∧
    addCount (tr ++ (runRerenders steps s).2) =
      removeCount (tr ++ (runRerenders steps s).2) +
        attachedNat (runRerenders steps s).1 := by
  induction steps generalizing s tr with
  | nil =>
    simp only [runRerenders, List.append_nil]
    exact ⟨hps, hb⟩
  | cons step rest ih =>
    obtain ⟨inp, env⟩ := step
    have hbal := rerender_balance inp env s
    have hb2 : addCount (tr ++ (rerender inp env s).2) =
        removeCount (tr ++ (rerender inp env s).2) +
          attachedNat (rerender inp env s).1 := by
      rw [addCount_append, removeCount_append]; omega
    have hps2 : ∀ n, removeCount ((tr ++ (rerender inp env s).2).take n) ≤
        addCount ((tr ++ (rerender inp env s).2).take n) :=
      prefixSafe_append tr (rerender inp env s).2 (attachedNat s) hb hps
        (rerender_prefix_bound inp env s)
    have := ih (rerender inp env s).1 (tr ++ (rerender inp env s).2) hb2 hps2
    simp only [runRerenders, List.append_assoc] at this ⊢
    exact this

theorem lookup_filter_ne (l : List (String × StoredString)) (k : String) :
    List.lookup k (l.filter (fun p => p.1 != k)) = none := by
  induction l with
  | nil => simp
  | cons hd tl ih =>
    by_cases h : hd.1 = k
    · simp [List.filter_cons, h, ih]
    · have hbe : (k == hd.1) = false := by simp [Ne.symm h]
      simp [List.filter_cons, h, List.lookup, hbe, ih]

/-!
## Claim theorems
-/

/-- C1, counterexample: with a `targetRef` supplied whose `current` is null,
the claim says no listener is attached at all; but on this concrete input the
mount trace is non-empty and a live attachment exists, so the claim is false.
The `??` in `element?.current ?? window` turns the null `current` into
`window`. -/
theorem c1_empty_ref_counterexample :
    ¬ ((mount ⟨"click", 7, some 1, Options.noOpts⟩ (fun _ => none)).2 = [] ∧
       (mount ⟨"click", 7, some 1, Options.noOpts⟩
          (fun _ => none)).1.attachment = none) := by
  decide

/-- C1, amended: when `targetRef` is supplied but its `current` is currently
null, the global `window` IS used as the fallback target: the listener is
attached to `window`. -/
theorem c1_empty_ref_window_fallback (e : String) (h : HandlerId) (r : RefId)
    (o : Options) (env : Env) (hnull : env r = none) :
    (mount ⟨e, h, some r, o⟩ env).2 = [PlatformCall.addCall window e 0 o] ∧
    (mount ⟨e, h, some r, o⟩ env).1.attachment = some ⟨window, e, 0, o⟩ := by
  have hres : resolveTarget (some r) env = window := by
    simp [resolveTarget, hnull]
  have hatt : (resolveTarget ((⟨e, h, some r, o⟩ : RenderInput).element)
      env).hasAddEventListener = true := by
    show (resolveTarget (some r) env).hasAddEventListener = true
    rw [hres]
    rfl
  rw [mount_eq_of_attachable _ env hatt]
  show (_ = _) ∧ (_ = _)
  constructor
  · show [PlatformCall.addCall (resolveTarget (some r) env) e 0 o] = _
    rw [hres]
  · show some (⟨resolveTarget (some r) env, e, 0, o⟩ : Attachment) = _
    rw [hres]

/-- Witness for C1's amended theorem at a concrete input. -/
theorem c1_empty_ref_window_fallback_witness :
    ((fun _ => none : Env) 5 = none) ∧
    (mount ⟨"resize", 2, some 5, Options.boolOpt true⟩
        (fun _ => none)).1.attachment =
      some ⟨window, "resize", 0, Options.boolOpt true⟩ :=
  ⟨rfl, (c1_empty_ref_window_fallback "resize" 2 5 (Options.boolOpt true)
    (fun _ => none) rfl).2⟩

/-- C2: across any sequence of re-renders that change only the handler
(`eventName`, ref and options fixed), an event fired on the subscribed
target after the last render invokes the most recently supplied handler —
via the trampoline reading the `savedHandler` cell — never a stale one. -/
theorem c2_latest_handler_invoked (inp : RenderInput) (env : Env)
    (hs : List HandlerId)
    (hatt : (resolveTarget inp.element env).hasAddEventListener = true) :
    fire (runRerenders (handlerSteps inp env hs) (mount inp env).1).1
        (resolveTarget inp.element env) inp.eventName =
      some (hs.getLastD inp.handler) := by
  rw [mount_eq_of_attachable inp env hatt]
  rw [runRerenders_handlerSteps inp env hs _ rfl rfl rfl (objectIs_refl _)]
  simp [fire]

/-- Witness for C2 at a concrete input: handlers 3, then 4, then 5; the
event invokes handler 5. -/
theorem c2_latest_handler_invoked_witness :
    fire (runRerenders
        (handlerSteps ⟨"click", 3, none, Options.noOpts⟩ (fun _ => none) [4, 5])
        (mount ⟨"click", 3, none, Options.noOpts⟩ (fun _ => none)).1).1
      window "click" = some 5 :=
  c2_latest_handler_invoked ⟨"click", 3, none, Options.noOpts⟩ (fun _ => none)
    [4, 5] rfl

/-- C3: for any number of re-renders with the same
`(eventName, element, options)` tuple but changing handler, the re-renders
emit no platform calls at all, and the whole subscription lifetime performs
exactly one `addEventListener` and exactly one `removeEventListener`. -/
theorem c3_no_listener_churn (inp : RenderInput) (env : Env)
    (hs : List HandlerId)
    (hatt : (resolveTarget inp.element env).hasAddEventListener = true) :
    (runRerenders (handlerSteps inp env hs) (mount inp env).1).2 = [] ∧
    addCount ((mount inp env).2 ++
        (runRerenders (handlerSteps inp env hs) (mount inp env).1).2 ++
        unmount (runRerenders (handlerSteps inp env hs) (mount inp env).1).1) =
      1 ∧
    removeCount ((mount inp env).2 ++
        (runRerenders (handlerSteps inp env hs) (mount inp env).1).2 ++
        unmount (runRerenders (handlerSteps inp env hs) (mount inp env).1).1) =
      1 := by
  rw [mount_eq_of_attachable inp env hatt,
      runRerenders_handlerSteps inp env hs _ rfl rfl rfl (objectIs_refl _)]
  simp [unmount, addCount, removeCount, isAdd, isRemove, List.filter_append]

/-- Witness for C3 at a concrete input. -/
theorem c3_no_listener_churn_witness :
    addCount ((mount ⟨"scroll", 1, none, Options.noOpts⟩ (fun _ => none)).2 ++
        (runRerenders
          (handlerSteps ⟨"scroll", 1, none, Options.noOpts⟩ (fun _ => none)
            [2, 3, 4])
          (mount ⟨"scroll", 1, none, Options.noOpts⟩ (fun _ => none)).1).2 ++
        unmount (runRerenders
          (handlerSteps ⟨"scroll", 1, none, Options.noOpts⟩ (fun _ => none)
            [2, 3, 4])
          (mount ⟨"scroll", 1, none, Options.noOpts⟩ (fun _ => none)).1).1) =
      1 :=
  (c3_no_listener_churn ⟨"scroll", 1, none, Options.noOpts⟩ (fun _ => none)
    [2, 3, 4] rfl).2.1

/-- C4: a rebind (change of `eventName`, ref identity or options) first
removes the old platform listener, and the `(eventName, listener, options)`
triple passed to `removeEventListener` is exactly the one the matching
`addEventListener` received. -/
theorem c4_rebind_remove_matches_add (inp : RenderInput) (env : Env)
    (inp2 : RenderInput) (env2 : Env)
    (hatt : (resolveTarget inp.element env).hasAddEventListener = true)
    (hch : depsChanged2 inp2 (mount inp env).1 = true) :
    (mount inp env).2 =
      [PlatformCall.addCall (resolveTarget inp.element env) inp.eventName 0
        inp.options] ∧
    (rerender inp2 env2 (mount inp env).1).2.head? =
      some (PlatformCall.removeCall (resolveTarget inp.element env)
        inp.eventName 0 inp.options) := by
  rw [mount_eq_of_attachable inp env hatt] at hch ⊢
  refine ⟨rfl, ?_⟩
  by_cases hatt2 : (resolveTarget inp2.element env2).hasAddEventListener = true <;>
    by_cases hh : inp2.handler = inp.handler <;>
      simp [rerender, runAttachEffect, hch, hh, hatt2]

/-- Witness for C4 at a concrete input: the event name changes from
`click` to `keydown`. -/
theorem c4_rebind_remove_matches_add_witness :
    (rerender ⟨"keydown", 1, none, Options.noOpts⟩ (fun _ => none)
        (mount ⟨"click", 1, none, Options.noOpts⟩ (fun _ => none)).1).2.head? =
      some (PlatformCall.removeCall window "click" 0 Options.noOpts) :=
  (c4_rebind_remove_matches_add ⟨"click", 1, none, Options.noOpts⟩
    (fun _ => none) ⟨"keydown", 1, none, Options.noOpts⟩ (fun _ => none)
    rfl (by decide)).2

/-- C5: when the resolved target lacks `addEventListener`, Bind is a silent
no-op — no platform call and no attachment — and the subsequent
teardown removes nothing (the effect registered no cleanup); no event can
ever reach the handler. -/
theorem c5_unattachable_target_noop (inp : RenderInput) (env : Env)
    (hatt : (resolveTarget inp.element env).hasAddEventListener = false) :
    (mount inp env).2 = [] ∧
    (mount inp env).1.attachment = none ∧
    unmount (mount inp env).1 = [] ∧
    (∀ t e, fire (mount inp env).1 t e = none) := by
  have hne : ¬ ((resolveTarget inp.element env).hasAddEventListener = true) := by
    simp [hatt]
  simp [mount, runAttachEffect, hne, unmount, fire]

/-- Witness for C5 at a concrete input: the ref resolves to an object
without `addEventListener`. -/
theorem c5_unattachable_target_noop_witness :
    (mount ⟨"change", 9, some 1, Options.noOpts⟩
        (fun _ => some ⟨4, false⟩)).2 = [] ∧
    unmount (mount ⟨"change", 9, some 1, Options.noOpts⟩
        (fun _ => some ⟨4, false⟩)).1 = [] :=
  ⟨(c5_unattachable_target_noop ⟨"change", 9, some 1, Options.noOpts⟩
      (fun _ => some ⟨4, false⟩) rfl).1,
   (c5_unattachable_target_noop ⟨"change", 9, some 1, Options.noOpts⟩
      (fun _ => some ⟨4, false⟩) rfl).2.2.1⟩

/-- C6: over a mount, an arbitrary sequence of re-renders, and the final
unmount, `addEventListener` and `removeEventListener` calls are exactly
balanced, and no prefix of the call trace ever has more removes than adds
(a detach never happens for an attach that never occurred). -/
theorem c6_attach_detach_balanced (inp : RenderInput) (env : Env)
    (steps : List (RenderInput × Env)) :
    addCount ((mount inp env).2 ++ (runRerenders steps (mount inp env).1).2 ++
        unmount (runRerenders steps (mount inp env).1).1) =
      removeCount ((mount inp env).2 ++
        (runRerenders steps (mount inp env).1).2 ++
        unmount (runRerenders steps (mount inp env).1).1) ∧
    ∀ n, removeCount (((mount inp env).2 ++
        (runRerenders steps (mount inp env).1).2 ++
        unmount (runRerenders steps (mount inp env).1).1).take n) ≤
      addCount (((mount inp env).2 ++
        (runRerenders steps (mount inp env).1).2 ++
        unmount (runRerenders steps (mount inp env).1).1).take n) := by
  obtain ⟨hmb, hmr⟩ := mount_balance inp env
  obtain ⟨hps, hbal⟩ := runRerenders_prefixSafe steps (mount inp env).1
    (mount inp env).2 hmb (mount_prefix_bound inp env)
  obtain ⟨hur, hua⟩ := unmount_counts (runRerenders steps (mount inp env).1).1
  constructor
  · rw [addCount_append, removeCount_append, addCount_append,
      removeCount_append]
    rw [addCount_append, removeCount_append] at hbal
    omega
  · exact prefixSafe_append
      ((mount inp env).2 ++ (runRerenders steps (mount inp env).1).2)
      (unmount (runRerenders steps (mount inp env).1).1)
      (attachedNat (runRerenders steps (mount inp env).1).1)
      hbal hps (unmount_prefix_bound _)

/-- C9: when the ref object's identity, `eventName` and `options` are all
unchanged between renders but the ref's `current` now points at a different
target, the attach effect does not re-run: no platform calls are made, the
listener stays on the previously resolved target, and events on the ref's
new target reach nothing. -/
theorem c9_ref_current_change_ignored (inp : RenderInput) (env env2 : Env)
    (r : RefId) (t1 t2 : Target)
    (helem : inp.element = some r)
    (h1 : env r = some t1) (hatt1 : t1.hasAddEventListener = true)
    (h2 : env2 r = some t2) (hne : t2 ≠ t1) :
    rerender inp env2 (mount inp env).1 = ((mount inp env).1, []) ∧
    fire (rerender inp env2 (mount inp env).1).1 t2 inp.eventName = none ∧
    fire (rerender inp env2 (mount inp env).1).1 t1 inp.eventName =
      some inp.handler := by
  have hres : resolveTarget inp.element env = t1 := by
    simp [resolveTarget, helem, h1]
  have hatt : (resolveTarget inp.element env).hasAddEventListener = true := by
    rw [hres]; exact hatt1
  rw [mount_eq_of_attachable inp env hatt]
  rw [rerender_handler_only inp env2 _ rfl
    (depsChanged2_false_of_same _ _ rfl rfl (objectIs_refl _))]
  refine ⟨rfl, ?_, ?_⟩
  · simp [fire, hres, Ne.symm hne]
  · simp [fire, hres]

/-- Witness for C9 at a concrete input: the ref first points at target 1,
then at target 2; the listener still fires only on target 1. -/
theorem c9_ref_current_change_ignored_witness :
    fire (rerender ⟨"click", 6, some 0, Options.noOpts⟩
        (fun _ => some ⟨2, true⟩)
        (mount ⟨"click", 6, some 0, Options.noOpts⟩
          (fun _ => some ⟨1, true⟩)).1).1 ⟨2, true⟩ "click" = none ∧
    fire (rerender ⟨"click", 6, some 0, Options.noOpts⟩
        (fun _ => some ⟨2, true⟩)
        (mount ⟨"click", 6, some 0, Options.noOpts⟩
          (fun _ => some ⟨1, true⟩)).1).1 ⟨1, true⟩ "click" = some 6 :=
  ⟨(c9_ref_current_change_ignored ⟨"click", 6, some 0, Options.noOpts⟩
      (fun _ => some ⟨1, true⟩) (fun _ => some ⟨2, true⟩) 0 ⟨1, true⟩ ⟨2, true⟩
      rfl rfl rfl rfl (by decide)).2.1,
   (c9_ref_current_change_ignored ⟨"click", 6, some 0, Options.noOpts⟩
      (fun _ => some ⟨1, true⟩) (fun _ => some ⟨2, true⟩) 0 ⟨1, true⟩ ⟨2, true⟩
      rfl rfl rfl rfl (by decide)).2.2⟩

/-- C10: the rebind decision keys on the *reference identity* of the options
object, not its contents: a structurally equal but freshly allocated options
object (same flags, different object id) triggers a full remove-and-re-add
even though `eventName`, the resolved target and the option values are
unchanged. -/
theorem c10_options_identity_churn (e : String) (h : HandlerId)
    (el : Option RefId) (env : Env) (o1 o2 : Nat) (v : ListenerOpts)
    (hne : o1 ≠ o2)
    (hatt : (resolveTarget el env).hasAddEventListener = true) :
    (rerender ⟨e, h, el, Options.objOpt o2 v⟩ env
        (mount ⟨e, h, el, Options.objOpt o1 v⟩ env).1).2 =
      [PlatformCall.removeCall (resolveTarget el env) e 0 (Options.objOpt o1 v),
       PlatformCall.addCall (resolveTarget el env) e 1
         (Options.objOpt o2 v)] := by
  rw [mount_eq_of_attachable ⟨e, h, el, Options.objOpt o1 v⟩ env hatt]
  have hch : depsChanged2 ⟨e, h, el, Options.objOpt o2 v⟩
      ({ savedHandler := h, handlerDep := h, eventDep := e, elementDep := el,
         optionsDep := Options.objOpt o1 v,
         attachment := some ⟨resolveTarget el env, e, 0, Options.objOpt o1 v⟩,
         nextLid := 1 } : HookState) = true := by
    simp [depsChanged2, objectIs, Ne.symm hne]
  simp [rerender, hch, runAttachEffect, hatt]

/-- Witness for C10 at a concrete input: same option flags, object ids 10
and 11 — the listener is removed and re-added. -/
theorem c10_options_identity_churn_witness :
    (rerender ⟨"click", 1, none, Options.objOpt 11 ⟨false, true, false⟩⟩
        (fun _ => none)
        (mount ⟨"click", 1, none, Options.objOpt 10 ⟨false, true, false⟩⟩
          (fun _ => none)).1).2 =
      [PlatformCall.removeCall window "click" 0
         (Options.objOpt 10 ⟨false, true, false⟩),
       PlatformCall.addCall window "click" 1
         (Options.objOpt 11 ⟨false, true, false⟩)] :=
  c10_options_identity_churn "click" 1 none (fun _ => none) 10 11
    ⟨false, true, false⟩ (by decide) rfl

/-- C7: for every serializable value and key, on a functioning platform
(writes and removes do not throw), writing then reading the same key returns
the value, and after removing the key the read returns `undefined` — for
both the session-scoped and the persistent storage hooks. -/
theorem c7_storage_round_trip (key : String) (v : JsValue) (σ : WebStorage)
    (hset : σ.setThrows = false) (hrem : σ.removeThrows = false) :
    (getSessionStorageItem key (setSessionStorageItem key v σ).1).1 = some v ∧
    (getSessionStorageItem key
        (removeSessionStorageItem key
          (setSessionStorageItem key v σ).1).1).1 = none ∧
    (LocalStorage.getItem key (LocalStorage.setItem key v σ).1).1 = some v ∧
    (LocalStorage.getItem key
        (LocalStorage.removeItem key
          (LocalStorage.setItem key v σ).1).1).1 = none := by
  refine ⟨?_, ?_, ?_, ?_⟩ <;>
    simp [setSessionStorageItem, getSessionStorageItem,
      removeSessionStorageItem, LocalStorage.setItem, LocalStorage.getItem,
      LocalStorage.removeItem, rawSetItem, rawGetItem, rawRemoveItem, hset,
      hrem, jsonStringify, jsonParse, List.lookup, List.filter_cons,
      lookup_filter_ne]

/-- Witness for C7 at a concrete input: the number 6 under key `token` in
an empty, non-throwing storage. -/
theorem c7_storage_round_trip_witness :
    (getSessionStorageItem "token"
        (setSessionStorageItem "token" (JsValue.vNum 6)
          ⟨[], false, false⟩).1).1 = some (JsValue.vNum 6) ∧
    (LocalStorage.getItem "token"
        (LocalStorage.removeItem "token"
          (LocalStorage.setItem "token" (JsValue.vNum 6)
            ⟨[], false, false⟩).1).1).1 = none :=
  ⟨(c7_storage_round_trip "token" (JsValue.vNum 6) ⟨[], false, false⟩
      rfl rfl).1,
   (c7_storage_round_trip "token" (JsValue.vNum 6) ⟨[], false, false⟩
      rfl rfl).2.2.2⟩

/-- C8: the getter returns `undefined` both on a missing entry (silently)
and on a stored string `JSON.parse` rejects (logging the failure); a
platform exception in the setter or remover is caught and logged, leaving
the storage unchanged — so no storage exception reaches the caller, and the
getter's value gives no way to tell a never-set key from an unparseable
one.  Holds for both storage hooks. -/
theorem c8_storage_error_handling (key : String) (v : JsValue)
    (σ : WebStorage) (s : String) :
    (rawGetItem σ key = none →
      getSessionStorageItem key σ = (none, []) ∧
      LocalStorage.getItem key σ = (none, [])) ∧
    (rawGetItem σ key = some (StoredString.malformed s) →
      getSessionStorageItem key σ = (none, ["error"]) ∧
      LocalStorage.getItem key σ = (none, ["error"])) ∧
    (σ.setThrows = true →
      setSessionStorageItem key v σ = (σ, ["error"]) ∧
      LocalStorage.setItem key v σ = (σ, ["error"])) ∧
    (σ.removeThrows = true →
      removeSessionStorageItem key σ = (σ, ["error"]) ∧
      LocalStorage.removeItem key σ = (σ, ["error"])) := by
  refine ⟨fun hg => ?_, fun hg => ?_, fun hs => ?_, fun hr => ?_⟩ <;>
    simp [getSessionStorageItem, LocalStorage.getItem, setSessionStorageItem,
      LocalStorage.setItem, removeSessionStorageItem, LocalStorage.removeItem,
      rawSetItem, rawRemoveItem, jsonStringify, jsonParse, *]

/-- Witness for C8 at concrete inputs: an empty storage (missing key), a
storage holding a malformed string under the key, and a storage whose
platform write and remove throw. -/
theorem c8_storage_error_handling_witness :
    getSessionStorageItem "k" ⟨[], false, false⟩ = (none, []) ∧
    LocalStorage.getItem "k"
      ⟨[("k", StoredString.malformed "oops")], false, false⟩ =
        (none, ["error"]) ∧
    setSessionStorageItem "k" JsValue.vNull ⟨[], true, true⟩ =
      (⟨[], true, true⟩, ["error"]) ∧
    LocalStorage.removeItem "k" ⟨[], true, true⟩ =
      (⟨[], true, true⟩, ["error"]) :=
  ⟨((c8_storage_error_handling "k" JsValue.vNull ⟨[], false, false⟩
      "oops").1 rfl).1,
   ((c8_storage_error_handling "k" JsValue.vNull
      ⟨[("k", StoredString.malformed "oops")], false, false⟩ "oops").2.1
        rfl).2,
   ((c8_storage_error_handling "k" JsValue.vNull ⟨[], true, true⟩
      "oops").2.2.1 rfl).1,
   ((c8_storage_error_handling "k" JsValue.vNull ⟨[], true, true⟩
      "oops").2.2.2 rfl).2⟩
